import Mathlib

/-!
Verification of the I2C general-call driver (`src/lib.rs`).

The driver issues single-byte broadcast writes on an I2C bus and classifies
the transport's outcome into a typed error taxonomy.  We embed the source
shallowly: the `embedded_hal` error-kind enums, the driver's `Command` enum
and its byte encoding, the `Error<E>` taxonomy, `res_map`, and the three
operations `reset`, `latch_addr` and `call`.  A transport is modelled as a
pure response function for `write` together with the `kind` classifier of
its error type; each operation additionally returns the exact list of write
transactions it issued, so that wire-level properties (destination address,
payload, number of attempts) are statable.
-/

namespace I2CGeneralCall

/-- The I2C general-call (broadcast) address, `GENERAL_CALL_ADDR` in the source. -/
def GENERAL_CALL_ADDR : Nat := 0x00

/-- The two specified general-call commands (`enum Command`). -/
inductive Command where
  | Reset
  | LatchAddr
deriving DecidableEq, Repr

/-- Byte encoding of a command: `impl From<Command> for u8`. -/
def Command.toU8 : Command → Nat
  | .Reset => 0x06
  | .LatchAddr => 0x04

/-- Phase of an unacknowledged byte: `embedded_hal::i2c::NoAcknowledgeSource`. -/
inductive NoAcknowledgeSource where
  | Address
  | Data
  | Unknown
deriving DecidableEq, Repr

/-- Transport fault kinds: `embedded_hal::i2c::ErrorKind`. -/
inductive ErrorKind where
  | Bus
  | ArbitrationLoss
  | NoAcknowledge (source : NoAcknowledgeSource)
  | Overrun
  | Other
deriving DecidableEq, Repr

/-- The driver's error taxonomy, `enum Error<E>` in the source. -/
inductive Error (E : Type) where
  | NoAckCall
  | NoAckCmd
  | I2C (e : E)
deriving DecidableEq

/-- A pure model of an `embedded_hal` I2C transport with error type `E`:
the `kind` classifier of the `i2c::Error` trait and a response function
for `write address payload`. -/
structure Transport (E : Type) where
  kind : E → ErrorKind
  write : Nat → List Nat → Except E Unit

/-- One write transaction as issued to the transport: destination address
and payload bytes. -/
structure WriteCall where
  addr : Nat
  payload : List Nat
deriving DecidableEq, Repr

/-- Invoking the transport's `write` while recording the transaction. -/
def Transport.writeTraced {E : Type} (tr : Transport E) (addr : Nat)
    (payload : List Nat) : List WriteCall × Except E Unit :=
  ([⟨addr, payload⟩], tr.write addr payload)

/-- The model of `core::num::NonZeroU8`: a byte statically guaranteed
nonzero. -/
structure NonZeroU8 where
  val : Nat
  isLt : val < 256
  ne_zero : val ≠ 0

/-- The checked constructor `NonZeroU8::new`: fails exactly on zero input
(inputs are bytes, below 256). -/
def NonZeroU8.new (n : Nat) : Option NonZeroU8 :=
  if h : n ≠ 0 ∧ n < 256 then some ⟨n, h.2, h.1⟩ else none

/-- The value accessor `NonZeroU8::get`. -/
def NonZeroU8.get (n : NonZeroU8) : Nat := n.val

/-- The driver struct `GeneralCall<I2C>`: exclusive owner of a transport. -/
structure GeneralCall (E : Type) where
  i2c : Transport E

/-- `GeneralCall::new`: wrap a transport handle.  No write is issued (the
body constructs the struct and nothing else), and the function is total. -/
def GeneralCall.new {E : Type} (i2c : Transport E) : GeneralCall E := ⟨i2c⟩

/-- `GeneralCall::destroy`: unwrap and return the owned transport handle.
No write is issued and the function is total. -/
def GeneralCall.destroy {E : Type} (d : GeneralCall E) : Transport E := d.i2c

/-- `GeneralCall::res_map`: classify a transport outcome into the driver's
taxonomy by the fault's `kind`. -/
def res_map {E : Type} (tr : Transport E) (res : Except E Unit) :
    Except (Error E) Unit :=
  match res with
  | .ok u => .ok u
  | .error e =>
    match tr.kind e with
    | .NoAcknowledge .Address => .error .NoAckCall
    | .NoAcknowledge .Data => .error .NoAckCmd
    | _ => .error (.I2C e)

/-- `GeneralCall::reset`: one broadcast write of the Reset command byte,
then classification of the outcome. -/
def GeneralCall.reset {E : Type} (d : GeneralCall E) :
    List WriteCall × Except (Error E) Unit :=
  let r := d.i2c.writeTraced GENERAL_CALL_ADDR [Command.toU8 .Reset]
  (r.1, res_map d.i2c r.2)

/-- `GeneralCall::latch_addr`: one broadcast write of the LatchAddr command
byte, then classification of the outcome. -/
def GeneralCall.latch_addr {E : Type} (d : GeneralCall E) :
    List WriteCall × Except (Error E) Unit :=
  let r := d.i2c.writeTraced GENERAL_CALL_ADDR [Command.toU8 .LatchAddr]
  (r.1, res_map d.i2c r.2)

/-- `GeneralCall::call`: one broadcast write of the caller's nonzero command
byte, then classification of the outcome. -/
def GeneralCall.call {E : Type} (d : GeneralCall E) (cmd : NonZeroU8) :
    List WriteCall × Except (Error E) Unit :=
  let r := d.i2c.writeTraced GENERAL_CALL_ADDR [cmd.get]
  (r.1, res_map d.i2c r.2)

/-- Constructor tag of a driver error, to compare variants irrespective of
any carried payload. -/
def errTag {E : Type} : Error E → Nat
  | .NoAckCall => 0
  | .NoAckCmd => 1
  | .I2C _ => 2

/-- Constructor tag of a classified outcome: `3` for success, else the tag
of the error variant. -/
def outcomeTag {E : Type} : Except (Error E) Unit → Nat
  | .ok _ => 3
  | .error u => errTag u

/-- A concrete transport over error type `ErrorKind` itself (`kind` is the
identity) that answers every write with the fixed response `resp`; used to
instantiate the classification theorems at concrete inputs. -/
def constTransport (resp : Except ErrorKind Unit) : Transport ErrorKind :=
  { kind := fun e => e, write := fun _ _ => resp }

/-- The concrete nonzero command byte 0x42. -/
def nz42 : NonZeroU8 := ⟨0x42, by decide, by decide⟩

/-- C1: every write issued by `reset`, `latch_addr` or `call b` goes to the
broadcast address `GENERAL_CALL_ADDR` (0x00) and carries a payload of
exactly one byte, regardless of which command was requested. -/
theorem ops_broadcast_single_byte {E : Type} (d : GeneralCall E)
    (b : NonZeroU8) :
    (∀ w ∈ d.reset.1, w.addr = GENERAL_CALL_ADDR ∧ w.payload.length = 1) ∧
    (∀ w ∈ d.latch_addr.1, w.addr = GENERAL_CALL_ADDR ∧ w.payload.length = 1) ∧
    (∀ w ∈ (d.call b).1, w.addr = GENERAL_CALL_ADDR ∧ w.payload.length = 1) := by
  refine ⟨?_, ?_, ?_⟩ <;>
    simp [GeneralCall.reset, GeneralCall.latch_addr, GeneralCall.call,
      Transport.writeTraced]

/-- C2: `reset` transmits exactly the single byte 0x06, `latch_addr`
exactly 0x04, and `call b` exactly the byte `b`, whose value always lies
in [1, 255]. -/
theorem ops_transmit_exact_bytes {E : Type} (d : GeneralCall E)
    (b : NonZeroU8) :
    d.reset.1 = [⟨GENERAL_CALL_ADDR, [0x06]⟩] ∧
    d.latch_addr.1 = [⟨GENERAL_CALL_ADDR, [0x04]⟩] ∧
    (d.call b).1 = [⟨GENERAL_CALL_ADDR, [b.val]⟩] ∧
    1 ≤ b.val ∧ b.val ≤ 255 := by
  refine ⟨rfl, rfl, rfl, Nat.one_le_iff_ne_zero.mpr b.ne_zero,
    Nat.lt_succ_iff.mp b.isLt⟩

/-- C7: wrapping a transport with `new` and unwrapping with `destroy`
returns the very same transport handle; both functions are total (cannot
fail) and issue no write. -/
theorem destroy_new_roundtrip {E : Type} (t : Transport E) :
    GeneralCall.destroy (GeneralCall.new t) = t := rfl

/-- C8: the command value accepted by `call` is nonzero by construction:
`NonZeroU8.new 0` fails, so no write with a zero payload byte is ever
issued by `call`. -/
theorem call_zero_rejected_at_construction {E : Type} (d : GeneralCall E)
    (b : NonZeroU8) :
    NonZeroU8.new 0 = none ∧
    ∀ w ∈ (d.call b).1, ∀ x ∈ w.payload, x ≠ 0 := by
  refine ⟨rfl, ?_⟩
  simp [GeneralCall.call, Transport.writeTraced, NonZeroU8.get]
  exact b.ne_zero

/-- C9: no operation retries: each of `reset`, `latch_addr` and `call`
invokes the transport's `write` exactly once and returns the classified
result of that single attempt. -/
theorem ops_single_write_no_retry {E : Type} (d : GeneralCall E)
    (b : NonZeroU8) :
    d.reset.1.length = 1 ∧
    d.latch_addr.1.length = 1 ∧
    (d.call b).1.length = 1 ∧
    d.reset.2 = res_map d.i2c (d.i2c.write GENERAL_CALL_ADDR [0x06]) ∧
    d.latch_addr.2 = res_map d.i2c (d.i2c.write GENERAL_CALL_ADDR [0x04]) ∧
    (d.call b).2 = res_map d.i2c (d.i2c.write GENERAL_CALL_ADDR [b.val]) := by
  exact ⟨rfl, rfl, rfl, rfl, rfl, rfl⟩

/-- C3: when the transport faults with kind NoAcknowledge of the Address
phase, each of the three operations returns exactly `Error.NoAckCall`. -/
theorem nack_address_gives_NoAckCall {E : Type} (d : GeneralCall E)
    (b : NonZeroU8) (e : E)
    (hw : ∀ a p, d.i2c.write a p = Except.error e)
    (hk : d.i2c.kind e = ErrorKind.NoAcknowledge NoAcknowledgeSource.Address) :
    d.reset.2 = Except.error Error.NoAckCall ∧
    d.latch_addr.2 = Except.error Error.NoAckCall ∧
    (d.call b).2 = Except.error Error.NoAckCall := by
  refine ⟨?_, ?_, ?_⟩ <;>
    simp [GeneralCall.reset, GeneralCall.latch_addr, GeneralCall.call,
      Transport.writeTraced, res_map, hw, hk]

/-- Witness for C3 at a concrete transport that nacks the address phase. -/
theorem nack_address_gives_NoAckCall_witness :
    (GeneralCall.new (constTransport (Except.error
        (ErrorKind.NoAcknowledge NoAcknowledgeSource.Address)))).reset.2 =
      Except.error Error.NoAckCall ∧
    (GeneralCall.new (constTransport (Except.error
        (ErrorKind.NoAcknowledge NoAcknowledgeSource.Address)))).latch_addr.2 =
      Except.error Error.NoAckCall ∧
    ((GeneralCall.new (constTransport (Except.error
        (ErrorKind.NoAcknowledge NoAcknowledgeSource.Address)))).call nz42).2 =
      Except.error Error.NoAckCall :=
  nack_address_gives_NoAckCall _ nz42
    (ErrorKind.NoAcknowledge NoAcknowledgeSource.Address)
    (fun _ _ => rfl) rfl

/-- C4: when the transport faults with kind NoAcknowledge of the Data
phase, each of the three operations returns exactly `Error.NoAckCmd`. -/
theorem nack_data_gives_NoAckCmd {E : Type} (d : GeneralCall E)
    (b : NonZeroU8) (e : E)
    (hw : ∀ a p, d.i2c.write a p = Except.error e)
    (hk : d.i2c.kind e = ErrorKind.NoAcknowledge NoAcknowledgeSource.Data) :
    d.reset.2 = Except.error Error.NoAckCmd ∧
    d.latch_addr.2 = Except.error Error.NoAckCmd ∧
    (d.call b).2 = Except.error Error.NoAckCmd := by
  refine ⟨?_, ?_, ?_⟩ <;>
    simp [GeneralCall.reset, GeneralCall.latch_addr, GeneralCall.call,
      Transport.writeTraced, res_map, hw, hk]

/-- Witness for C4 at a concrete transport that nacks the data phase. -/
theorem nack_data_gives_NoAckCmd_witness :
    (GeneralCall.new (constTransport (Except.error
        (ErrorKind.NoAcknowledge NoAcknowledgeSource.Data)))).reset.2 =
      Except.error Error.NoAckCmd ∧
    (GeneralCall.new (constTransport (Except.error
        (ErrorKind.NoAcknowledge NoAcknowledgeSource.Data)))).latch_addr.2 =
      Except.error Error.NoAckCmd ∧
    ((GeneralCall.new (constTransport (Except.error
        (ErrorKind.NoAcknowledge NoAcknowledgeSource.Data)))).call nz42).2 =
      Except.error Error.NoAckCmd :=
  nack_data_gives_NoAckCmd _ nz42
    (ErrorKind.NoAcknowledge NoAcknowledgeSource.Data)
    (fun _ _ => rfl) rfl

/-- C5: when the transport faults with any kind other than an Address or
Data no-acknowledgement (including NoAcknowledge of an Unknown phase),
each operation returns the opaque variant `Error.I2C e` carrying the exact
fault value unmodified. -/
theorem other_fault_passthrough {E : Type} (d : GeneralCall E)
    (b : NonZeroU8) (e : E)
    (hw : ∀ a p, d.i2c.write a p = Except.error e)
    (hka : d.i2c.kind e ≠ ErrorKind.NoAcknowledge NoAcknowledgeSource.Address)
    (hkd : d.i2c.kind e ≠ ErrorKind.NoAcknowledge NoAcknowledgeSource.Data) :
    d.reset.2 = Except.error (Error.I2C e) ∧
    d.latch_addr.2 = Except.error (Error.I2C e) ∧
    (d.call b).2 = Except.error (Error.I2C e) := by
  have hres : res_map d.i2c (Except.error e) = Except.error (Error.I2C e) := by
    rcases hk : d.i2c.kind e with _ | _ | s | _ | _
    · simp [res_map, hk]
    · simp [res_map, hk]
    · rcases s with _ | _ | _
      · exact absurd hk hka
      · exact absurd hk hkd
      · simp [res_map, hk]
    · simp [res_map, hk]
    · simp [res_map, hk]
  refine ⟨?_, ?_, ?_⟩ <;>
    simp [GeneralCall.reset, GeneralCall.latch_addr, GeneralCall.call,
      Transport.writeTraced, hw, hres]

/-- Witness for C5 at a concrete transport reporting arbitration loss. -/
theorem other_fault_passthrough_witness :
    (GeneralCall.new (constTransport
        (Except.error ErrorKind.ArbitrationLoss))).reset.2 =
      Except.error (Error.I2C ErrorKind.ArbitrationLoss) ∧
    (GeneralCall.new (constTransport
        (Except.error ErrorKind.ArbitrationLoss))).latch_addr.2 =
      Except.error (Error.I2C ErrorKind.ArbitrationLoss) ∧
    ((GeneralCall.new (constTransport
        (Except.error ErrorKind.ArbitrationLoss))).call nz42).2 =
      Except.error (Error.I2C ErrorKind.ArbitrationLoss) :=
  other_fault_passthrough _ nz42 ErrorKind.ArbitrationLoss
    (fun _ _ => rfl) (by decide) (by decide)

/-- C6: when the transport reports success for the broadcast write, each
operation returns success carrying the unit value. -/
theorem success_gives_unit {E : Type} (d : GeneralCall E) (b : NonZeroU8)
    (hw : ∀ a p, d.i2c.write a p = Except.ok ()) :
    d.reset.2 = Except.ok () ∧
    d.latch_addr.2 = Except.ok () ∧
    (d.call b).2 = Except.ok () := by
  refine ⟨?_, ?_, ?_⟩ <;>
    simp [GeneralCall.reset, GeneralCall.latch_addr, GeneralCall.call,
      Transport.writeTraced, res_map, hw]

/-- Witness for C6 at a concrete transport that acknowledges everything. -/
theorem success_gives_unit_witness :
    (GeneralCall.new (constTransport (Except.ok ()))).reset.2 =
      Except.ok () ∧
    (GeneralCall.new (constTransport (Except.ok ()))).latch_addr.2 =
      Except.ok () ∧
    ((GeneralCall.new (constTransport (Except.ok ()))).call nz42).2 =
      Except.ok () :=
  success_gives_unit _ nz42 (fun _ _ => rfl)

/-- C10: classification by `res_map` depends only on the fault's kind
(faults of equal kind land in the same variant; `res_map` is a pure
function hence deterministic), the original fault value is retained exactly
in the opaque `Error.I2C` variant, and the `NoAckCall` and `NoAckCmd`
variants carry no payload (the variant tag determines the value). -/
theorem res_map_depends_only_on_kind {E : Type} (tr : Transport E)
    (e1 e2 : E) (h : tr.kind e1 = tr.kind e2) :
    outcomeTag (res_map tr (Except.error e1)) =
      outcomeTag (res_map tr (Except.error e2)) ∧
    (∀ e x, res_map tr (Except.error e) = Except.error (Error.I2C x) →
      x = e) ∧
    (∀ r : Error E, errTag r = 0 → r = Error.NoAckCall) ∧
    (∀ r : Error E, errTag r = 1 → r = Error.NoAckCmd) := by
  refine ⟨?_, ?_, ?_, ?_⟩
  · rcases hk : tr.kind e1 with _ | _ | (_ | _ | _) | _ | _ <;>
      (rw [hk] at h; simp [res_map, hk, ← h, outcomeTag, errTag])
  · intro e x hx
    simp only [res_map] at hx
    rcases hk : tr.kind e with _ | _ | (_ | _ | _) | _ | _ <;>
      (rw [hk] at hx; simp_all)
  · intro r hr
    cases r <;> simp_all [errTag]
  · intro r hr
    cases r <;> simp_all [errTag]

/-- Witness for C10 at the concrete identity-kind transport, with two
faults of equal kind. -/
theorem res_map_depends_only_on_kind_witness :
    outcomeTag (res_map (constTransport (Except.ok ()))
        (Except.error ErrorKind.Bus)) =
      outcomeTag (res_map (constTransport (Except.ok ()))
        (Except.error ErrorKind.Bus)) ∧
    (∀ e x, res_map (constTransport (Except.ok ())) (Except.error e) =
      Except.error (Error.I2C x) → x = e) ∧
    (∀ r : Error ErrorKind, errTag r = 0 → r = Error.NoAckCall) ∧
    (∀ r : Error ErrorKind, errTag r = 1 → r = Error.NoAckCmd) :=
  res_map_depends_only_on_kind (constTransport (Except.ok ()))
    ErrorKind.Bus ErrorKind.Bus rfl

end I2CGeneralCall
